import Mathlib

/-!
# alertmanager-webhook-signald: a shallow embedding of `main.go`

The program relays Alertmanager webhook payloads to the signald daemon.  This
file embeds the four pieces of `main.go` that carry behaviour:

* the receiver registration loop of `main` (lines 107-119),
* `handleReconnect` (lines 77-93),
* `hook` (lines 151-169),
* `handle` (lines 171-210).

Go strings are byte sequences.  The external collaborators (template engine,
signald client, JSON decoder, `fmt` verbs) are parameters collected in `Env`.
Process termination through `log.Fatal` is an explicit outcome.
-/

namespace SignaldWebhook

/-! ## Strings -/

/-- A Go `string`: an immutable sequence of bytes. -/
abbrev GoString := List UInt8

/-- The bytes of an ASCII literal of the source text. -/
def ascii (s : String) : GoString := s.data.map fun c => UInt8.ofNat c.toNat

/-- Go `strings.HasPrefix(s, p)`: `len(s) >= len(p) && s[:len(p)] == p`. -/
def HasPrefix (s p : GoString) : Bool :=
  decide (p.length ≤ s.length) && (s.take p.length == p)

/-! ## Data model -/

/-- Modelled from the spec: the `Receiver` type declaration is not in `main.go`;
the spec gives it as name, sender, ordered recipient templates and body template
name.  `main.go` reads the fields `Name`, `Sender`, `To` and `Template`. -/
structure Receiver where
  Name : GoString
  Sender : GoString
  To : List GoString
  Template : GoString
  deriving DecidableEq, Repr

/-- Alertmanager `template.KV`: string-to-string labels. -/
abbrev KV := List (GoString × GoString)

/-- Modelled from the spec: one entry of the `alerts` sequence of the webhook
payload (status, labels, annotations, start and end time). -/
structure Alert where
  Status : GoString
  Labels : KV
  Annotations : KV
  StartsAt : GoString
  EndsAt : GoString
  deriving DecidableEq, Repr

/-- Modelled from the spec: the `Message` type declaration is not in `main.go`;
the spec gives the decoded webhook payload as receiver name, group labels,
common labels, common annotations and alerts.  `main.go` reads `Receiver` and
`GroupLabels` and hands the whole value to the template engine. -/
structure Message where
  Receiver : GoString
  GroupLabels : KV
  CommonLabels : KV
  CommonAnnotations : KV
  Alerts : List Alert
  deriving DecidableEq, Repr

/-- The signald `v1.JsonAddress`; `handle` only ever sets `Number`. -/
structure JsonAddress where
  Number : GoString
  deriving DecidableEq, Repr

/-- The signald `v1.SendRequest`, restricted to the fields `handle` writes.
`RecipientAddress` is a pointer (nil = `none`); `RecipientGroupID` is a string
whose zero value is the empty string.  All other fields keep their zero value. -/
structure SendRequest where
  Username : GoString
  MessageBody : GoString
  RecipientAddress : Option JsonAddress
  RecipientGroupID : GoString
  deriving DecidableEq, Repr

/-- Values of the Go `error` interface that occur in `main.go`: an error built by
`fmt.Errorf` in `handle`, or an error handed back by an external library
(template engine, JSON decoder, signald client). -/
inductive GoError (E : Type) where
  | errorf (msg : GoString)
  | lib (e : E)
  deriving DecidableEq, Repr

/-- The external collaborators of `main.go`.  `E` is the type of library errors,
`D` the state of the daemon connection (`common.Signald`), `B` the type of HTTP
request bodies. -/
structure Env (E D B : Type) where
  /-- Method `templates.ExecuteTextString(text, m)`. -/
  ExecuteTextString : GoString → Message → Except E GoString
  /-- Method `req.Submit(common.Signald)`: new connection state and the error. -/
  Submit : D → SendRequest → D × Option E
  /-- Call `json.NewDecoder(req.Body).Decode(&m)`. -/
  Decode : B → Except E Message
  /-- The `fmt` verb `%q` applied to a string. -/
  fmtQ : GoString → GoString
  /-- The `fmt` verb `%#v` applied to the group labels. -/
  fmtSharpV : KV → GoString
  /-- The `fmt` verb `%v` applied to an error (its `Error()` text). -/
  fmtV : E → GoString

/-! ## The receiver map -/

/-- The global `receivers = map[string]*Receiver{}`: a finite map, kept as a list
of entries with pairwise distinct keys. -/
abbrev ReceiverMap := List (GoString × Receiver)

/-- Map read `receivers[k]` with the comma-ok form: `none` when `k` is absent. -/
def ReceiverMap.get (rs : ReceiverMap) (k : GoString) : Option Receiver :=
  (rs.find? fun p => p.1 == k).map Prod.snd

/-- Map write `receivers[k] = v`: an existing entry for `k` is replaced. -/
def ReceiverMap.set (rs : ReceiverMap) (k : GoString) (v : Receiver) : ReceiverMap :=
  (rs.filter fun p => !(p.1 == k)) ++ [(k, v)]

/-! ## `main`: receiver registration (lines 107-119) -/

/-- The `log.Fatal` exits of the receiver registration in `main`. -/
inductive StartupFatal where
  /-- Line 108: `no receivers defined`. -/
  | noReceivers
  /-- Line 113: `Receiver missing 'name:'`. -/
  | missingName
  /-- Line 116: `Duplicate receiver name: %q`. -/
  | duplicateName (name : GoString)
  deriving DecidableEq, Repr

/-- The loop `for _, recv := range cfg.Receivers` of `main` (lines 111-119),
started on the receivers still to visit and the map built so far. -/
def registerReceivers : List Receiver → ReceiverMap → Except StartupFatal ReceiverMap
  | [], rs => .ok rs
  | recv :: rest, rs =>
    if recv.Name.length = 0 then
      .error .missingName
    else if (rs.get recv.Name).isSome then
      .error (.duplicateName recv.Name)
    else
      registerReceivers rest (rs.set recv.Name recv)

/-- Lines 107-119 of `main`: the emptiness check followed by the registration
loop, run on the initially empty global map. -/
def mainReceivers (cfgReceivers : List Receiver) : Except StartupFatal ReceiverMap :=
  if cfgReceivers.length = 0 then
    .error .noReceivers
  else
    registerReceivers cfgReceivers []

/-! ## `handle` (lines 171-210) -/

/-- The observable effects of `handle`, in program order. -/
inductive Event (E : Type) where
  /-- A call `templates.ExecuteTextString(text, m)`. -/
  | render (text : GoString)
  /-- A call `req.Submit(common.Signald)` together with the error it returned. -/
  | submit (req : SendRequest) (err : Option E)
  deriving DecidableEq, Repr

/-- How a call of `handle` ends: it returns an `error` (nil = `none`), or
`log.Fatal` terminates the process with the submit error. -/
inductive Outcome (E : Type) where
  | returned (err : Option (GoError E))
  | fatal (e : E)
  deriving DecidableEq, Repr

/-- The result of running `handle`: the effects, the daemon connection state
afterwards, and how the call ended. -/
structure Run (E D : Type) where
  events : List (Event E)
  daemon : D
  outcome : Outcome E

/-- Prepend one effect to a run. -/
def Run.after {E D : Type} (ev : Event E) (r : Run E D) : Run E D :=
  { r with events := ev :: r.events }

/-- The request built at lines 185-202 for a recipient template that rendered to
`to` (here `to_`): sender and body, then the address chosen by the prefix of `to`.  A string
with neither prefix is only logged (line 201) and leaves the request without an
address. -/
def buildRequest (recv : Receiver) (body to_ : GoString) : SendRequest :=
  let req : SendRequest :=
    { Username := recv.Sender, MessageBody := body,
      RecipientAddress := none, RecipientGroupID := [] }
  if HasPrefix to_ (ascii "tel:") then
    { req with RecipientAddress := some { Number := to_.drop 4 } }
  else if HasPrefix to_ (ascii "group:") then
    { req with RecipientGroupID := to_.drop 6 }
  else
    req

/-- The loop `for _, toTmpl := range recv.To` of `handle` (lines 184-208)
followed by `return err` (line 209).  The arguments are the recipient templates
still to visit, the current value of the function-level variable `err`, and the
daemon connection state. -/
def handleLoop {E D B : Type} (env : Env E D B) (recv : Receiver) (m : Message)
    (body : GoString) : List GoString → Option (GoError E) → D → Run E D
  | [], err, d => { events := [], daemon := d, outcome := .returned err }
  | toTmpl :: rest, _, d =>
    -- line 191: `to, err = templates.ExecuteTextString(toTmpl, m)`
    Run.after (.render toTmpl) <|
      match env.ExecuteTextString toTmpl m with
      | .error e =>
        -- lines 192-195: log and `continue`; `err` keeps the render error
        handleLoop env recv m body rest (some (.lib e)) d
      | .ok to_ =>
        let req := buildRequest recv body to_
        -- line 203: `_, err := req.Submit(...)` declares a new, loop-local `err`
        match env.Submit d req with
        | (d1, some e) =>
          -- line 205: `log.Fatal`
          { events := [.submit req (some e)], daemon := d1, outcome := .fatal e }
        | (d1, none) =>
          Run.after (.submit req none) <|
            handleLoop env recv m body rest none d1

/-- The body computed at lines 179-182 together with the value of `err` after
them: the rendered template, or the fallback text built by `fmt.Sprintf`. -/
def renderBody {E D B : Type} (env : Env E D B) (recv : Receiver) (m : Message) :
    GoString × Option (GoError E) :=
  match env.ExecuteTextString recv.Template m with
  | .ok body => (body, none)
  | .error e =>
    (env.fmtSharpV m.GroupLabels ++ ascii ": Template expansion failed: " ++ env.fmtV e,
      some (.lib e))

/-- The function `handle(m *Message) error`, run against the receiver map
`receivers` and the daemon connection state `d`. -/
def handle {E D B : Type} (env : Env E D B) (receivers : ReceiverMap) (m : Message)
    (d : D) : Run E D :=
  match receivers.get m.Receiver with
  | none =>
    { events := [], daemon := d,
      outcome := .returned
        (some (.errorf (env.fmtQ m.Receiver ++ ascii ": Receiver not configured"))) }
  | some recv =>
    let be := renderBody env recv m
    Run.after (.render recv.Template) <|
      handleLoop env recv m be.1 recv.To be.2 d

/-- The requests passed to `Submit`, in order. -/
def submitted {E : Type} : List (Event E) → List SendRequest
  | [] => []
  | .render _ :: evs => submitted evs
  | .submit req _ :: evs => req :: submitted evs

/-- The template texts passed to `ExecuteTextString`, in order. -/
def rendered {E : Type} : List (Event E) → List GoString
  | [] => []
  | .render t :: evs => t :: rendered evs
  | .submit _ _ :: evs => rendered evs

/-- Whether some `Submit` call of the run returned an error. -/
def submitFailed {E : Type} : List (Event E) → Bool
  | [] => false
  | .render _ :: evs => submitFailed evs
  | .submit _ (some _) :: _ => true
  | .submit _ none :: evs => submitFailed evs

/-! ## `hook` (lines 151-169) -/

/-- The Prometheus counters `received_total` and `errors_total{type=...}`. -/
structure Metrics where
  received : Nat
  errors : GoString → Nat

/-- Call `errorsMetric.With(prometheus.Labels{"type": t}).Add(1)`. -/
def Metrics.addError (mt : Metrics) (t : GoString) : Metrics :=
  { mt with errors := fun l => if l = t then mt.errors l + 1 else mt.errors l }

/-- What `hook` writes to the `http.ResponseWriter`: the status code and the
text handed to `http.Error` or `fmt.Fprintln` (both end the line after it).  A
write without an explicit status is a 200. -/
structure HttpResponse where
  status : Nat
  text : GoString
  deriving DecidableEq, Repr

/-- The result of serving one request to `/alert`: counters and daemon state
afterwards, the effects of the dispatch, and the response, which is absent when
`log.Fatal` ended the process before anything was written. -/
structure HookRun (E D : Type) where
  metrics : Metrics
  events : List (Event E)
  daemon : D
  response : Option HttpResponse

/-- The function `hook(w, req)`. -/
def hook {E D B : Type} (env : Env E D B) (receivers : ReceiverMap) (reqBody : B)
    (mt : Metrics) (d : D) : HookRun E D :=
  let mt := { mt with received := mt.received + 1 }
  match env.Decode reqBody with
  | .error _ =>
    { metrics := mt.addError (ascii "decode"), events := [], daemon := d,
      response := some { status := 400, text := ascii "Decode failed" } }
  | .ok m =>
    let r := handle env receivers m d
    match r.outcome with
    | .fatal _ =>
      { metrics := mt, events := r.events, daemon := r.daemon, response := none }
    | .returned (some _) =>
      { metrics := mt.addError (ascii "handle"), events := r.events, daemon := r.daemon,
        response := some { status := 500, text := ascii "Handling alert failed" } }
    | .returned none =>
      { metrics := mt, events := r.events, daemon := r.daemon,
        response := some { status := 200, text := ascii "ok" } }

/-! ## `handleReconnect` (lines 77-93) -/

/-- Modelled from the spec: the policy of the external `backoff` package, whose
code is not in `main.go`: seeded with a base interval, doubling up to a cap,
reset to base.  `attempt` counts the calls of `Duration` since the last reset. -/
structure Backoff where
  base : Nat
  cap : Nat
  attempt : Nat
  deriving DecidableEq, Repr

/-- Modelled from the spec: `b.Duration()` gives the base interval doubled once
per earlier call, capped, and advances the policy. -/
def Backoff.Duration (b : Backoff) : Nat × Backoff :=
  (min (b.base * 2 ^ b.attempt) b.cap, { b with attempt := b.attempt + 1 })

/-- Modelled from the spec: `b.Reset()` returns the policy to its base interval. -/
def Backoff.Reset (b : Backoff) : Backoff :=
  { b with attempt := 0 }

/-- The state of the supervisor loop: the local `b` and the global `connected`. -/
structure Supervisor where
  b : Backoff
  connected : Bool
  deriving DecidableEq, Repr

/-- The result of one call `common.Signald.Connect()`: it returns an error, or it
succeeds and the connection is used until `Listen` returns. -/
inductive Connect where
  | failed
  | established
  deriving DecidableEq, Repr

/-- One iteration of the `for` loop of `handleReconnect`, given the result of
`Connect()`.  It yields the new state and the duration passed to `time.Sleep`,
if any. -/
def reconnectStep (s : Supervisor) : Connect → Supervisor × Option Nat
  | .failed =>
    -- lines 82-86: `connected = false`, `d := b.Duration()`, `time.Sleep(d)`
    let db := s.b.Duration
    ({ b := db.2, connected := false }, some db.1)
  | .established =>
    -- lines 88-90: `b.Reset()`, `connected = true`, `Listen`
    ({ b := s.b.Reset, connected := true }, none)

/-- The loop of `handleReconnect` over successive connection attempts: the
final state and the sleeps, one entry per attempt. -/
def reconnectLoop (s : Supervisor) : List Connect → Supervisor × List (Option Nat)
  | [] => (s, [])
  | c :: cs =>
    let st := reconnectStep s c
    let r := reconnectLoop st.1 cs
    (r.1, st.2 :: r.2)

/-- The function `handleReconnect()`, observed over a finite number of connection
attempts: it starts from `b := &backoff.Backoff{}`, whose base interval and cap
are `base` and `cap`, and from the zero value of `connected`. -/
def handleReconnect (base cap : Nat) (attempts : List Connect) :
    Supervisor × List (Option Nat) :=
  reconnectLoop { b := { base := base, cap := cap, attempt := 0 }, connected := false } attempts

/-! ## Vocabulary for the statements about `handle` -/

/-- The value the assignment `_, err = templates.ExecuteTextString(text, m)`
leaves in `err`: nil when the template renders, the library error otherwise. -/
def renderErr {E D B : Type} (env : Env E D B) (m : Message) (text : GoString) :
    Option (GoError E) :=
  match env.ExecuteTextString text m with
  | .ok _ => none
  | .error e => some (.lib e)

/-- The strings the templates `texts` render to, in order, leaving out the
templates that fail to render. -/
def renderings {E D B : Type} (env : Env E D B) (m : Message) (texts : List GoString) :
    List GoString :=
  texts.filterMap fun t =>
    match env.ExecuteTextString t m with
    | .ok s => some s
    | .error _ => none

/-- Whether a recipient template fails to render or renders to a string that
starts with `tel:` or `group:`. -/
def recognised {E D B : Type} (env : Env E D B) (m : Message) (text : GoString) : Bool :=
  match env.ExecuteTextString text m with
  | .ok s => HasPrefix s (ascii "tel:") || HasPrefix s (ascii "group:")
  | .error _ => true

/-- The addressing of a request, as the spec words it: the request for
`"tel:" ++ n` has recipient address number `n` and an empty group id, the request
for `"group:" ++ g` has group id `g` and no recipient address; both carry the
sender as `Username` and the body as `MessageBody`. -/
inductive Addressed (sender body : GoString) : GoString → SendRequest → Prop where
  | tel (n : GoString) :
      Addressed sender body (ascii "tel:" ++ n)
        { Username := sender, MessageBody := body,
          RecipientAddress := some { Number := n }, RecipientGroupID := [] }
  | group (g : GoString) :
      Addressed sender body (ascii "group:" ++ g)
        { Username := sender, MessageBody := body,
          RecipientAddress := none, RecipientGroupID := g }

/-- The recipient of a request: its address and its group id. -/
def recipient (req : SendRequest) : Option JsonAddress × GoString :=
  (req.RecipientAddress, req.RecipientGroupID)

/-- The fallback body of line 181 for the render error `e`. -/
def fallbackBody {E D B : Type} (env : Env E D B) (m : Message) (e : E) : GoString :=
  env.fmtSharpV m.GroupLabels ++ ascii ": Template expansion failed: " ++ env.fmtV e

/-- Whether each `Submit` call of the run returned an error, in order. -/
def submitAnswers {E : Type} : List (Event E) → List Bool
  | [] => []
  | .render _ :: evs => submitAnswers evs
  | .submit _ err :: evs => err.isSome :: submitAnswers evs

/-- The map entry `receivers[recv.Name] = recv` written at line 118. -/
def entryOf (recv : Receiver) : GoString × Receiver := (recv.Name, recv)

/-! ## A concrete deployment used for evaluation -/

/-- A template engine for action-free templates: a text without `{{` renders to
itself, a text that opens an action fails (as a reference to an undefined field
does).  The daemon counts the requests it accepted and rejects none. -/
def demoEnv : Env GoString Nat GoString where
  ExecuteTextString := fun text _ =>
    if HasPrefix text (ascii "\x7b\x7b") then .error (ascii "can't evaluate field") else .ok text
  Submit := fun d _ => (d + 1, none)
  Decode := fun b =>
    if b = ascii "ops" ∨ b = ascii "nobody" then
      .ok { Receiver := b, GroupLabels := [], CommonLabels := [], CommonAnnotations := [],
            Alerts := [] }
    else .error (ascii "invalid character")
  fmtQ := fun s => ascii "\"" ++ s ++ ascii "\""
  fmtSharpV := fun _ => ascii "template.KV\x7b\x7d"
  fmtV := fun e => e

/-- The same deployment with a template engine that renders every text to
itself. -/
def demoEnvLenient : Env GoString Nat GoString :=
  { demoEnv with ExecuteTextString := fun text _ => .ok text }

/-- The same deployment with a daemon that rejects every request. -/
def demoEnvRejecting : Env GoString Nat GoString :=
  { demoEnv with Submit := fun d _ => (d + 1, some (ascii "broken pipe")) }

/-- The deployment `demoEnv` with a named body template: the template
`alert.tmpl` renders to the text `disk full`. -/
def demoEnvNamed : Env GoString Nat GoString :=
  { demoEnv with
    ExecuteTextString := fun text m =>
      if text = ascii "alert.tmpl" then .ok (ascii "disk full")
      else demoEnv.ExecuteTextString text m }

/-- The deployment `demoEnv` with a daemon that accepts a request only when its
message body is `body`. -/
def demoEnvPicky : Env GoString Nat GoString :=
  { demoEnv with
    Submit := fun d req =>
      if req.MessageBody = ascii "body" then (d + 1, none)
      else (d + 1, some (ascii "rejected")) }

/-- The deployment `demoEnvPicky` with a template engine under which a text that
opens an action renders to `body` instead of failing. -/
def demoEnvPickyRendering : Env GoString Nat GoString :=
  { demoEnvPicky with
    ExecuteTextString := fun text _ =>
      if HasPrefix text (ascii "\x7b\x7b") then .ok (ascii "body") else .ok text }

/-- The deployment `demoEnvRejecting` with a template engine that renders every
text to itself. -/
def demoEnvLenientRejecting : Env GoString Nat GoString :=
  { demoEnvRejecting with ExecuteTextString := fun text _ => .ok text }

/-- A message for receiver `ops` without labels or alerts. -/
def demoMessage : Message :=
  { Receiver := ascii "ops", GroupLabels := [], CommonLabels := [], CommonAnnotations := [],
    Alerts := [] }

/-- A receiver `ops` with the given body template and recipient templates. -/
def demoReceiver (template : GoString) (to_ : List GoString) : Receiver :=
  { Name := ascii "ops", Sender := ascii "+100", To := to_, Template := template }

/-- The receiver map holding only `demoReceiver template to_`. -/
def demoReceivers (template : GoString) (to_ : List GoString) : ReceiverMap :=
  [(ascii "ops", demoReceiver template to_)]

/-! ## Unfolding lemmas -/

theorem handleLoop_render_error {E D B : Type} (env : Env E D B) (recv : Receiver)
    (m : Message) (body t : GoString) (rest : List GoString) (err : Option (GoError E))
    (d : D) (e : E) (h : env.ExecuteTextString t m = .error e) :
    handleLoop env recv m body (t :: rest) err d
      = Run.after (.render t) (handleLoop env recv m body rest (some (.lib e)) d) := by
  simp only [handleLoop, h]

theorem handleLoop_submit_error {E D B : Type} (env : Env E D B) (recv : Receiver)
    (m : Message) (body t s : GoString) (rest : List GoString) (err : Option (GoError E))
    (d d1 : D) (e : E) (h : env.ExecuteTextString t m = .ok s)
    (hs : env.Submit d (buildRequest recv body s) = (d1, some e)) :
    handleLoop env recv m body (t :: rest) err d
      = Run.after (.render t)
          { events := [.submit (buildRequest recv body s) (some e)], daemon := d1,
            outcome := .fatal e } := by
  simp only [handleLoop, h, hs]

theorem handleLoop_submit_ok {E D B : Type} (env : Env E D B) (recv : Receiver)
    (m : Message) (body t s : GoString) (rest : List GoString) (err : Option (GoError E))
    (d d1 : D) (h : env.ExecuteTextString t m = .ok s)
    (hs : env.Submit d (buildRequest recv body s) = (d1, none)) :
    handleLoop env recv m body (t :: rest) err d
      = Run.after (.render t) (Run.after (.submit (buildRequest recv body s) none)
          (handleLoop env recv m body rest none d1)) := by
  simp only [handleLoop, h, hs]

/-- Case analysis on one iteration of the loop of `handle`. -/
theorem handleLoop_cases {E D B : Type} (env : Env E D B) (recv : Receiver)
    (m : Message) (body t : GoString) (rest : List GoString) (err : Option (GoError E))
    (d : D) :
    (∃ e, env.ExecuteTextString t m = .error e ∧
        handleLoop env recv m body (t :: rest) err d
          = Run.after (.render t) (handleLoop env recv m body rest (some (.lib e)) d)) ∨
    (∃ s d1 e, env.ExecuteTextString t m = .ok s ∧
        env.Submit d (buildRequest recv body s) = (d1, some e) ∧
        handleLoop env recv m body (t :: rest) err d
          = Run.after (.render t)
              { events := [.submit (buildRequest recv body s) (some e)], daemon := d1,
                outcome := .fatal e }) ∨
    (∃ s d1, env.ExecuteTextString t m = .ok s ∧
        env.Submit d (buildRequest recv body s) = (d1, none) ∧
        handleLoop env recv m body (t :: rest) err d
          = Run.after (.render t) (Run.after (.submit (buildRequest recv body s) none)
              (handleLoop env recv m body rest none d1))) := by
  cases h : env.ExecuteTextString t m with
  | error e => exact Or.inl ⟨e, rfl, handleLoop_render_error env recv m body t rest err d e h⟩
  | ok s =>
    right
    rcases hs : env.Submit d (buildRequest recv body s) with ⟨d1, _ | e⟩
    · exact Or.inr ⟨s, d1, rfl, hs, handleLoop_submit_ok env recv m body t s rest err d d1 h hs⟩
    · exact Or.inl ⟨s, d1, e, rfl, hs,
        handleLoop_submit_error env recv m body t s rest err d d1 e h hs⟩

theorem handle_unknown_receiver_events {E D B : Type} (env : Env E D B)
    (receivers : ReceiverMap) (m : Message) (d : D) (h : receivers.get m.Receiver = none) :
    (handle env receivers m d).events = [] := by
  simp [handle, h]

/-! ## Claims -/

/-- C1: for a message whose receiver name is not a key of the receiver map,
`handle` returns the non-nil error `<quoted name>: Receiver not configured`,
calls neither `ExecuteTextString` nor `Submit` (its effect list is empty) and
leaves the daemon connection untouched. -/
theorem handle_unknown_receiver {E D B : Type} (env : Env E D B) (receivers : ReceiverMap)
    (m : Message) (d : D) (h : receivers.get m.Receiver = none) :
    (handle env receivers m d).outcome
        = .returned (some (.errorf (env.fmtQ m.Receiver ++ ascii ": Receiver not configured")))
      ∧ (handle env receivers m d).events = []
      ∧ submitted (handle env receivers m d).events = []
      ∧ rendered (handle env receivers m d).events = []
      ∧ (handle env receivers m d).daemon = d := by
  simp [handle, h, submitted, rendered]

theorem handle_unknown_receiver_witness :
    (demoReceivers (ascii "body") [ascii "tel:+1"]).get
        ({ demoMessage with Receiver := ascii "nobody" } : Message).Receiver = none
      ∧ (handle demoEnv (demoReceivers (ascii "body") [ascii "tel:+1"])
          { demoMessage with Receiver := ascii "nobody" } 0).events = [] :=
  ⟨by decide,
    (handle_unknown_receiver demoEnv (demoReceivers (ascii "body") [ascii "tel:+1"])
      { demoMessage with Receiver := ascii "nobody" } 0 (by decide)).2.1⟩

/-- C2 (evaluation of the code): a configured receiver whose recipients render to
`foo:bar` and `tel:+1`.  `handle` issues two `Submit` calls, the first of them for
`foo:bar` with neither a recipient address nor a group id, where the claim
counts one. -/
theorem handle_unknown_prefix_is_submitted :
    submitted (handle demoEnv
        (demoReceivers (ascii "body") [ascii "foo:bar", ascii "tel:+1"]) demoMessage 0).events
      = [ { Username := ascii "+100", MessageBody := ascii "body",
            RecipientAddress := none, RecipientGroupID := [] },
          { Username := ascii "+100", MessageBody := ascii "body",
            RecipientAddress := some { Number := ascii "+1" }, RecipientGroupID := [] } ]
    ∧ (handle demoEnv
        (demoReceivers (ascii "body") [ascii "foo:bar", ascii "tel:+1"]) demoMessage 0).daemon
      = 2 := by
  decide

/-- C3 (evaluation of the code): a configured receiver whose first recipient
renders to `tel:+1` and whose last recipient template fails to render.  No
submit fails, one request is submitted, and `handle` returns the render error
of the last template instead of nil; with the two recipients swapped it returns
nil. -/
theorem handle_returns_stale_render_error :
    (handle demoEnv
        (demoReceivers (ascii "body") [ascii "tel:+1", ascii "\x7b\x7b .Nope \x7d\x7d"]) demoMessage 0).outcome
      = .returned (some (.lib (ascii "can't evaluate field")))
    ∧ submitFailed (handle demoEnv
        (demoReceivers (ascii "body") [ascii "tel:+1", ascii "\x7b\x7b .Nope \x7d\x7d"]) demoMessage 0).events
      = false
    ∧ (handle demoEnv
        (demoReceivers (ascii "body") [ascii "\x7b\x7b .Nope \x7d\x7d", ascii "tel:+1"]) demoMessage 0).outcome
      = .returned none := by
  decide

/-! ## Lemmas about the loop of `handle` -/

theorem submitFailed_after_render {E D : Type} (t : GoString) (r : Run E D) :
    submitFailed (Run.after (.render t) r).events = submitFailed r.events := rfl

theorem submitFailed_after_submit_ok {E D : Type} (req : SendRequest) (r : Run E D) :
    submitFailed (Run.after (.submit req none) r).events = submitFailed r.events := rfl

theorem outcome_after {E D : Type} (ev : Event E) (r : Run E D) :
    (Run.after ev r).outcome = r.outcome := rfl

theorem events_after {E D : Type} (ev : Event E) (r : Run E D) :
    (Run.after ev r).events = ev :: r.events := rfl

/-- The value of `err` when the loop of `handle` is left normally: the render
result of the last template visited, or the value on entry when there is none. -/
theorem handleLoop_outcome {E D B : Type} (env : Env E D B) (recv : Receiver) (m : Message)
    (body : GoString) (tos : List GoString) :
    ∀ (err : Option (GoError E)) (d : D),
      submitFailed (handleLoop env recv m body tos err d).events = false →
      (handleLoop env recv m body tos err d).outcome
        = .returned (match tos.getLast? with
            | none => err
            | some t => renderErr env m t) := by
  induction tos with
  | nil => intro err d _; rfl
  | cons t rest ih =>
    intro err d hok
    have hlast : ∀ (x : Option (GoError E)),
        renderErr env m t = x →
        (match rest.getLast? with
          | none => x
          | some u => renderErr env m u)
        = (match (t :: rest).getLast? with
          | none => err
          | some u => renderErr env m u) := by
      intro x hx
      cases rest with
      | nil => simp [hx]
      | cons u us =>
        rw [List.getLast?_cons_cons]
        cases hl : (u :: us).getLast? with
        | none => simp at hl
        | some v => rfl
    rcases handleLoop_cases env recv m body t rest err d with
      ⟨e, hr, heq⟩ | ⟨s, d1, e, hr, hs, heq⟩ | ⟨s, d1, hr, hs, heq⟩
    · rw [heq, submitFailed_after_render] at hok
      rw [heq, outcome_after, ih _ _ hok]
      exact congrArg _ (hlast _ (by simp [renderErr, hr]))
    · rw [heq] at hok
      simp [Run.after, submitFailed] at hok
    · rw [heq, submitFailed_after_render, submitFailed_after_submit_ok] at hok
      rw [heq, outcome_after, outcome_after, ih _ _ hok]
      exact congrArg _ (hlast _ (by simp [renderErr, hr]))

/-- A failed `Submit` is the last effect of the loop of `handle`, and the loop
ends in `log.Fatal` with its error. -/
theorem handleLoop_failed_submit_last {E D B : Type} (env : Env E D B) (recv : Receiver)
    (m : Message) (body : GoString) (tos : List GoString) :
    ∀ (err : Option (GoError E)) (d : D) (pre post : List (Event E)) (req : SendRequest)
      (e : E),
      (handleLoop env recv m body tos err d).events = pre ++ .submit req (some e) :: post →
      post = [] ∧ (handleLoop env recv m body tos err d).outcome = .fatal e := by
  induction tos with
  | nil =>
    intro err d pre post req e h
    simp [handleLoop] at h
  | cons t rest ih =>
    intro err d pre post req e h
    rcases handleLoop_cases env recv m body t rest err d with
      ⟨e1, _, heq⟩ | ⟨s, d1, e1, _, _, heq⟩ | ⟨s, d1, _, _, heq⟩
    · rw [heq, events_after] at h
      rw [heq, outcome_after]
      cases pre with
      | nil => simp at h
      | cons p pre1 =>
        simp only [List.cons_append, List.cons.injEq] at h
        exact ih _ _ pre1 post req e h.2
    · rw [heq] at h
      rw [heq, outcome_after]
      simp only [Run.after] at h
      cases pre with
      | nil => simp at h
      | cons p pre1 =>
        simp only [List.cons_append, List.cons.injEq] at h
        cases pre1 with
        | nil =>
          simp only [List.nil_append, List.cons.injEq, Event.submit.injEq,
            Option.some.injEq] at h
          exact ⟨h.2.2.symm, by rw [h.2.1.2]⟩
        | cons q pre2 => simp at h
    · rw [heq, events_after, events_after] at h
      rw [heq, outcome_after, outcome_after]
      cases pre with
      | nil => simp at h
      | cons p pre1 =>
        simp only [List.cons_append, List.cons.injEq] at h
        cases pre1 with
        | nil => simp at h
        | cons q pre2 =>
          simp only [List.cons_append, List.cons.injEq] at h
          exact ih _ _ pre2 post req e h.2.2

/-! ## Lemmas about prefixes and `buildRequest` -/

theorem HasPrefix_split (s p : GoString) (h : HasPrefix s p = true) :
    s = p ++ s.drop p.length := by
  simp only [HasPrefix, Bool.and_eq_true, decide_eq_true_eq, beq_iff_eq] at h
  have := (List.take_append_drop p.length s).symm
  rw [h.2] at this
  exact this

theorem buildRequest_body (recv : Receiver) (body s : GoString) :
    (buildRequest recv body s).MessageBody = body
      ∧ (buildRequest recv body s).Username = recv.Sender := by
  unfold buildRequest
  split
  · exact ⟨rfl, rfl⟩
  · split <;> exact ⟨rfl, rfl⟩

theorem buildRequest_recipient (recv : Receiver) (body body1 s : GoString) :
    recipient (buildRequest recv body s) = recipient (buildRequest recv body1 s) := by
  unfold buildRequest recipient
  split
  · rfl
  · split <;> rfl

theorem buildRequest_addressed (recv : Receiver) (body s : GoString)
    (h : (HasPrefix s (ascii "tel:") || HasPrefix s (ascii "group:")) = true) :
    Addressed recv.Sender body s (buildRequest recv body s) := by
  by_cases ht : HasPrefix s (ascii "tel:") = true
  · have hs := HasPrefix_split s _ ht
    have hb : buildRequest recv body s
        = { Username := recv.Sender, MessageBody := body,
            RecipientAddress := some { Number := s.drop 4 }, RecipientGroupID := [] } := by
      simp [buildRequest, ht]
    rw [hb]
    have := @Addressed.tel recv.Sender body (s.drop 4)
    have hlen : (ascii "tel:").length = 4 := rfl
    rw [hlen] at hs
    rw [← hs] at this
    exact this
  · have hg : HasPrefix s (ascii "group:") = true := by
      simpa [ht] using h
    have hs := HasPrefix_split s _ hg
    have hb : buildRequest recv body s
        = { Username := recv.Sender, MessageBody := body,
            RecipientAddress := none, RecipientGroupID := s.drop 6 } := by
      simp [buildRequest, ht, hg]
    rw [hb]
    have := @Addressed.group recv.Sender body (s.drop 6)
    have hlen : (ascii "group:").length = 6 := rfl
    rw [hlen] at hs
    rw [← hs] at this
    exact this

theorem renderings_cons_error {E D B : Type} (env : Env E D B) (m : Message) (t : GoString)
    (rest : List GoString) (e : E) (h : env.ExecuteTextString t m = .error e) :
    renderings env m (t :: rest) = renderings env m rest := by
  simp [renderings, List.filterMap_cons, h]

theorem renderings_cons_ok {E D B : Type} (env : Env E D B) (m : Message) (t s : GoString)
    (rest : List GoString) (h : env.ExecuteTextString t m = .ok s) :
    renderings env m (t :: rest) = s :: renderings env m rest := by
  simp [renderings, List.filterMap_cons, h]

theorem renderings_congr {E D B : Type} (env env1 : Env E D B) (m : Message)
    (tos : List GoString)
    (h : ∀ t ∈ tos, env1.ExecuteTextString t m = env.ExecuteTextString t m) :
    renderings env1 m tos = renderings env m tos := by
  induction tos with
  | nil => rfl
  | cons t rest ih =>
    have ht := h t (List.mem_cons_self _ _)
    have hrest := ih fun u hu => h u (List.mem_cons_of_mem _ hu)
    simp only [renderings, List.filterMap_cons, ht] at hrest ⊢
    rw [hrest]

/-- The requests the loop of `handle` submits are an initial part of the
requests built for the recipients that render, in declared order. -/
theorem handleLoop_submitted_initial {E D B : Type} (env : Env E D B) (recv : Receiver)
    (m : Message) (body : GoString) (tos : List GoString) :
    ∀ (err : Option (GoError E)) (d : D),
      submitted (handleLoop env recv m body tos err d).events
        <+: (renderings env m tos).map (buildRequest recv body) := by
  induction tos with
  | nil => intro err d; simp [handleLoop, submitted]
  | cons t rest ih =>
    intro err d
    rcases handleLoop_cases env recv m body t rest err d with
      ⟨e1, hr, heq⟩ | ⟨s, d1, e1, hr, _, heq⟩ | ⟨s, d1, hr, _, heq⟩
    · rw [heq, renderings_cons_error env m t rest e1 hr]
      exact ih _ _
    · rw [heq, renderings_cons_ok env m t s rest hr]
      simp [Run.after, submitted]
    · rw [heq, renderings_cons_ok env m t s rest hr]
      simp only [Run.after, submitted, List.map_cons]
      exact (List.prefix_cons_inj _).mpr (ih _ _)

/-- When no submit fails, the loop of `handle` renders every recipient template
and submits exactly the requests built for the recipients that render. -/
theorem handleLoop_submitted {E D B : Type} (env : Env E D B) (recv : Receiver)
    (m : Message) (body : GoString) (tos : List GoString) :
    ∀ (err : Option (GoError E)) (d : D),
      submitFailed (handleLoop env recv m body tos err d).events = false →
      submitted (handleLoop env recv m body tos err d).events
          = (renderings env m tos).map (buildRequest recv body)
        ∧ rendered (handleLoop env recv m body tos err d).events = tos := by
  induction tos with
  | nil => intro err d _; simp [handleLoop, submitted, rendered, renderings]
  | cons t rest ih =>
    intro err d hok
    rcases handleLoop_cases env recv m body t rest err d with
      ⟨e1, hr, heq⟩ | ⟨s, d1, e1, hr, _, heq⟩ | ⟨s, d1, hr, _, heq⟩
    · rw [heq, submitFailed_after_render] at hok
      rw [heq, renderings_cons_error env m t rest e1 hr]
      have := ih _ _ hok
      simp only [Run.after, submitted, rendered]
      exact ⟨this.1, by rw [this.2]⟩
    · rw [heq] at hok
      simp [Run.after, submitFailed] at hok
    · rw [heq, submitFailed_after_render, submitFailed_after_submit_ok] at hok
      rw [heq, renderings_cons_ok env m t s rest hr]
      have := ih _ _ hok
      simp only [Run.after, submitted, rendered, List.map_cons]
      exact ⟨by rw [this.1], by rw [this.2]⟩

theorem handle_configured {E D B : Type} (env : Env E D B) (receivers : ReceiverMap)
    (m : Message) (d : D) (recv : Receiver) (h : receivers.get m.Receiver = some recv) :
    handle env receivers m d
      = Run.after (.render recv.Template)
          (handleLoop env recv m (renderBody env recv m).1 recv.To
            (renderBody env recv m).2 d) := by
  simp [handle, h]

theorem renderBody_err {E D B : Type} (env : Env E D B) (recv : Receiver) (m : Message) :
    (renderBody env recv m).2 = renderErr env m recv.Template := by
  unfold renderBody renderErr
  split <;> rfl

theorem renderBody_fallback {E D B : Type} (env : Env E D B) (recv : Receiver) (m : Message)
    (e : E) (h : env.ExecuteTextString recv.Template m = .error e) :
    (renderBody env recv m).1 = fallbackBody env m e := by
  simp [renderBody, fallbackBody, h]

theorem mem_renderings {E D B : Type} (env : Env E D B) (m : Message) (tos : List GoString)
    (s : GoString) (h : s ∈ renderings env m tos) :
    ∃ t ∈ tos, env.ExecuteTextString t m = .ok s := by
  simp only [renderings, List.mem_filterMap] at h
  obtain ⟨t, ht, hs⟩ := h
  refine ⟨t, ht, ?_⟩
  cases hr : env.ExecuteTextString t m with
  | error e => simp [hr] at hs
  | ok s1 =>
    simp only [hr, Option.some.injEq] at hs
    rw [hs]

theorem renderBody_body {E D B : Type} (env : Env E D B) (recv : Receiver) (m : Message) :
    (renderBody env recv m).1
      = (match env.ExecuteTextString recv.Template m with
          | .ok body => body
          | .error e =>
            env.fmtSharpV m.GroupLabels ++ ascii ": Template expansion failed: " ++ env.fmtV e) := by
  unfold renderBody
  cases env.ExecuteTextString recv.Template m <;> rfl

theorem submitAnswers_length {E : Type} (evs : List (Event E)) :
    (submitAnswers evs).length = (submitted evs).length := by
  induction evs with
  | nil => rfl
  | cons ev rest ih =>
    cases ev with
    | render t => simpa [submitAnswers, submitted] using ih
    | submit req err => simp [submitAnswers, submitted, ih]

theorem submitFailed_eq_any {E : Type} (evs : List (Event E)) :
    submitFailed evs = (submitAnswers evs).any id := by
  induction evs with
  | nil => rfl
  | cons ev rest ih =>
    cases ev with
    | render t => simpa [submitAnswers, submitFailed] using ih
    | submit req err =>
      cases err with
      | none => simpa [submitAnswers, submitFailed] using ih
      | some e => simp [submitAnswers, submitFailed]

/-- The loop of `handle` ends in `log.Fatal` exactly when a submit failed. -/
theorem handleLoop_fatal_iff {E D B : Type} (env : Env E D B) (recv : Receiver) (m : Message)
    (body : GoString) (tos : List GoString) :
    ∀ (err : Option (GoError E)) (d : D),
      (∃ e, (handleLoop env recv m body tos err d).outcome = .fatal e) ↔
        submitFailed (handleLoop env recv m body tos err d).events = true := by
  induction tos with
  | nil => intro err d; simp [handleLoop, submitFailed]
  | cons t rest ih =>
    intro err d
    rcases handleLoop_cases env recv m body t rest err d with
      ⟨e1, _, heq⟩ | ⟨s, d1, e1, _, _, heq⟩ | ⟨s, d1, _, _, heq⟩
    · rw [heq, outcome_after, submitFailed_after_render]
      exact ih _ _
    · rw [heq]
      simp [Run.after, submitFailed]
    · rw [heq, outcome_after, outcome_after, submitFailed_after_render,
        submitFailed_after_submit_ok]
      exact ih _ _

/-- Two initial parts of one list that have the same length are equal. -/
theorem prefix_eq_of_length {α : Type} (l1 l2 l : List α) (h1 : l1 <+: l) (h2 : l2 <+: l)
    (hlen : l1.length = l2.length) : l1 = l2 := by
  have h12 : l1 <+: l2 := List.prefix_of_prefix_length_le h1 h2 (le_of_eq hlen)
  exact h12.eq_of_length hlen

/-- The recipients the loop of `handle` serves are an initial part of the
recipients of the templates that render, whatever the body. -/
theorem handleLoop_recipients_initial {E D B : Type} (env : Env E D B) (recv : Receiver)
    (m : Message) (body : GoString) (tos : List GoString) (err : Option (GoError E)) (d : D) :
    (submitted (handleLoop env recv m body tos err d).events).map recipient
      <+: (renderings env m tos).map fun s => recipient (buildRequest recv [] s) := by
  have h := (handleLoop_submitted_initial env recv m body tos err d).map recipient
  rw [List.map_map] at h
  have hfun : (recipient ∘ buildRequest recv body)
      = fun s => recipient (buildRequest recv [] s) := by
    funext s
    exact buildRequest_recipient recv body [] s
  rw [hfun] at h
  exact h

/-- C4: for a configured receiver each of whose recipient templates fails to
render or renders to a string starting with `tel:` or `group:`, and provided no
submit fails, the requests `handle` submits correspond one to one, in declared
order, to the recipients that rendered: the request for `"tel:" ++ n` has
recipient address number `n` and an empty group id, the request for
`"group:" ++ g` has group id `g` and no recipient address, and each carries the
receiver's sender as `Username` and, as `MessageBody`, the one body of this
message: the text the body template renders to, or, when it fails to render
with error `e`, the `%#v` of the group labels followed by
`: Template expansion failed: ` and the text of `e`.  Templates that fail to
render are left out of the list and change nothing else. -/
theorem handle_requests_in_order {E D B : Type} (env : Env E D B) (receivers : ReceiverMap)
    (m : Message) (d : D) (recv : Receiver)
    (hrecv : receivers.get m.Receiver = some recv)
    (hrec : ∀ t ∈ recv.To, recognised env m t = true)
    (hok : submitFailed (handle env receivers m d).events = false) :
    List.Forall₂
      (Addressed recv.Sender
        (match env.ExecuteTextString recv.Template m with
          | .ok body => body
          | .error e =>
            env.fmtSharpV m.GroupLabels ++ ascii ": Template expansion failed: " ++ env.fmtV e))
      (renderings env m recv.To) (submitted (handle env receivers m d).events) := by
  rw [← renderBody_body env recv m]
  rw [handle_configured env receivers m d recv hrecv] at hok ⊢
  rw [submitFailed_after_render] at hok
  have hsub := (handleLoop_submitted env recv m _ recv.To _ d hok).1
  simp only [Run.after, submitted]
  rw [hsub, List.forall₂_map_right_iff, List.forall₂_same]
  intro s hs
  obtain ⟨t, ht, hr⟩ := mem_renderings env m recv.To s hs
  have := hrec t ht
  simp only [recognised, hr] at this
  exact buildRequest_addressed recv _ s this

theorem handle_requests_in_order_witness :
    List.Forall₂ (Addressed (ascii "+100") (ascii "disk full"))
      [ascii "tel:+1", ascii "group:ab"]
      (submitted (handle demoEnvNamed
        (demoReceivers (ascii "alert.tmpl")
          [ascii "tel:+1", ascii "\x7b\x7b .Nope \x7d\x7d", ascii "group:ab"])
        demoMessage 0).events) :=
  handle_requests_in_order demoEnvNamed
    (demoReceivers (ascii "alert.tmpl")
      [ascii "tel:+1", ascii "\x7b\x7b .Nope \x7d\x7d", ascii "group:ab"])
    demoMessage 0
    (demoReceiver (ascii "alert.tmpl")
      [ascii "tel:+1", ascii "\x7b\x7b .Nope \x7d\x7d", ascii "group:ab"])
    (by decide) (by decide) (by decide)

/-- C5 (the claim as stated fails): receiver `ops` has a body template that fails
to render and the recipients `tel:+1`, `tel:+2`; the daemon accepts a request only
when its body is `body`.  `handle` submits the request for `+1` with the fallback
body, the daemon rejects it, and `handle` ends in `log.Fatal` with `+2` never
served.  In the run where the body template renders to `body` and the recipient
templates render alike, both recipients are served and `handle` returns nil. -/
theorem handle_body_fallback_depends_on_daemon :
    demoEnvPicky.ExecuteTextString (ascii "\x7b\x7b .Nope \x7d\x7d") demoMessage
        = .error (ascii "can't evaluate field")
      ∧ demoEnvPickyRendering.ExecuteTextString (ascii "\x7b\x7b .Nope \x7d\x7d") demoMessage
        = .ok (ascii "body")
      ∧ demoEnvPickyRendering.ExecuteTextString (ascii "tel:+1") demoMessage
        = demoEnvPicky.ExecuteTextString (ascii "tel:+1") demoMessage
      ∧ demoEnvPickyRendering.ExecuteTextString (ascii "tel:+2") demoMessage
        = demoEnvPicky.ExecuteTextString (ascii "tel:+2") demoMessage
      ∧ (submitted (handle demoEnvPicky
          (demoReceivers (ascii "\x7b\x7b .Nope \x7d\x7d") [ascii "tel:+1", ascii "tel:+2"])
          demoMessage 0).events).map recipient
        = [(some { Number := ascii "+1" }, [])]
      ∧ (handle demoEnvPicky
          (demoReceivers (ascii "\x7b\x7b .Nope \x7d\x7d") [ascii "tel:+1", ascii "tel:+2"])
          demoMessage 0).outcome
        = .fatal (ascii "rejected")
      ∧ (submitted (handle demoEnvPickyRendering
          (demoReceivers (ascii "\x7b\x7b .Nope \x7d\x7d") [ascii "tel:+1", ascii "tel:+2"])
          demoMessage 0).events).map recipient
        = [(some { Number := ascii "+1" }, []), (some { Number := ascii "+2" }, [])]
      ∧ (handle demoEnvPickyRendering
          (demoReceivers (ascii "\x7b\x7b .Nope \x7d\x7d") [ascii "tel:+1", ascii "tel:+2"])
          demoMessage 0).outcome
        = .returned none
      ∧ (submitted (handle demoEnvPicky
          (demoReceivers (ascii "\x7b\x7b .Nope \x7d\x7d") [ascii "tel:+1", ascii "tel:+2"])
          demoMessage 0).events).map recipient
        ≠ (submitted (handle demoEnvPickyRendering
          (demoReceivers (ascii "\x7b\x7b .Nope \x7d\x7d") [ascii "tel:+1", ascii "tel:+2"])
          demoMessage 0).events).map recipient :=
  ⟨rfl, rfl, rfl, rfl, by decide, by decide, by decide, by decide, by decide⟩

/-- C5 (amended): for a message with a configured receiver whose body template
fails to render with error `e`, the render failure does not end `handle`.
Every request `handle` submits has the fallback string as `MessageBody`: the
`%#v` of the group labels followed by `: Template expansion failed: ` and the
text of `e`.  When no submit fails, `handle` returns and every recipient
template has been rendered.  Compared with any run in which the body renders and
the recipient templates render alike: the recipients served by the two runs are,
in order, one an initial part of the other; they are the same, and the two runs
end alike (both in `log.Fatal` or both by returning), whenever the daemon answers
the successive submits of the two runs alike; and they are the same when no
submit fails in either run. -/
theorem handle_body_fallback {E D B : Type} (env : Env E D B) (receivers : ReceiverMap)
    (m : Message) (d : D) (recv : Receiver) (e : E)
    (hrecv : receivers.get m.Receiver = some recv)
    (hbody : env.ExecuteTextString recv.Template m = .error e) :
    (∀ req ∈ submitted (handle env receivers m d).events,
        req.MessageBody
          = env.fmtSharpV m.GroupLabels ++ ascii ": Template expansion failed: " ++ env.fmtV e)
      ∧ (submitFailed (handle env receivers m d).events = false →
          (∃ err, (handle env receivers m d).outcome = .returned err)
            ∧ rendered (handle env receivers m d).events = recv.Template :: recv.To)
      ∧ (∀ (env1 : Env E D B) (d1 : D) (b : GoString),
          env1.ExecuteTextString recv.Template m = .ok b →
          (∀ t ∈ recv.To, env1.ExecuteTextString t m = env.ExecuteTextString t m) →
          ((submitted (handle env receivers m d).events).map recipient
              <+: (submitted (handle env1 receivers m d1).events).map recipient
            ∨ (submitted (handle env1 receivers m d1).events).map recipient
              <+: (submitted (handle env receivers m d).events).map recipient)
          ∧ (submitAnswers (handle env receivers m d).events
                = submitAnswers (handle env1 receivers m d1).events →
              (submitted (handle env receivers m d).events).map recipient
                  = (submitted (handle env1 receivers m d1).events).map recipient
                ∧ ((∃ e1, (handle env receivers m d).outcome = .fatal e1) ↔
                    ∃ e1, (handle env1 receivers m d1).outcome = .fatal e1))
          ∧ (submitFailed (handle env receivers m d).events = false →
              submitFailed (handle env1 receivers m d1).events = false →
              (submitted (handle env receivers m d).events).map recipient
                = (submitted (handle env1 receivers m d1).events).map recipient)) := by
  have hfb := renderBody_fallback env recv m e hbody
  refine ⟨?_, ?_, ?_⟩
  · intro req hreq
    rw [handle_configured env receivers m d recv hrecv] at hreq
    simp only [Run.after, submitted] at hreq
    have hpre := handleLoop_submitted_initial env recv m (renderBody env recv m).1 recv.To
      (renderBody env recv m).2 d
    have hmem := hpre.subset hreq
    rw [List.mem_map] at hmem
    obtain ⟨s, _, hs⟩ := hmem
    rw [← hs, (buildRequest_body recv _ s).1, hfb]
    rfl
  · intro hok
    rw [handle_configured env receivers m d recv hrecv] at hok ⊢
    rw [submitFailed_after_render] at hok
    refine ⟨?_, ?_⟩
    · rw [outcome_after]
      exact ⟨_, handleLoop_outcome env recv m _ recv.To _ d hok⟩
    · simp only [Run.after, rendered]
      rw [(handleLoop_submitted env recv m _ recv.To _ d hok).2]
  · intro env1 d1 b _ hto
    rw [handle_configured env receivers m d recv hrecv,
      handle_configured env1 receivers m d1 recv hrecv]
    simp only [events_after, outcome_after, submitted, submitAnswers, submitFailed]
    have hA := handleLoop_recipients_initial env recv m (renderBody env recv m).1 recv.To
      (renderBody env recv m).2 d
    have hC := handleLoop_recipients_initial env1 recv m (renderBody env1 recv m).1 recv.To
      (renderBody env1 recv m).2 d1
    rw [renderings_congr env env1 m recv.To hto] at hC
    refine ⟨ List.prefix_or_prefix_of_prefix hA hC, ?_, ?_⟩
    · intro hans
      refine ⟨?_, ?_⟩
      · apply prefix_eq_of_length _ _ _ hA hC
        rw [List.length_map, List.length_map, ← submitAnswers_length, ← submitAnswers_length,
          hans]
      · rw [handleLoop_fatal_iff, handleLoop_fatal_iff, submitFailed_eq_any,
          submitFailed_eq_any, hans]
    · intro hok hok1
      rw [(handleLoop_submitted env recv m _ recv.To _ d hok).1,
        (handleLoop_submitted env1 recv m _ recv.To _ d1 hok1).1,
        renderings_congr env env1 m recv.To hto]
      simp only [List.map_map]
      apply List.map_congr_left
      intro s _
      exact buildRequest_recipient recv _ _ s

theorem handle_body_fallback_witness :
    (submitted (handle demoEnvRejecting
        (demoReceivers (ascii "\x7b\x7b .Nope \x7d\x7d") [ascii "tel:+1", ascii "group:ab"])
        demoMessage 0).events).map recipient
      = (submitted (handle demoEnvLenientRejecting
        (demoReceivers (ascii "\x7b\x7b .Nope \x7d\x7d") [ascii "tel:+1", ascii "group:ab"])
        demoMessage 0).events).map recipient :=
  (((handle_body_fallback demoEnvRejecting
      (demoReceivers (ascii "\x7b\x7b .Nope \x7d\x7d") [ascii "tel:+1", ascii "group:ab"])
      demoMessage 0
      (demoReceiver (ascii "\x7b\x7b .Nope \x7d\x7d") [ascii "tel:+1", ascii "group:ab"])
      (ascii "can't evaluate field") (by decide) (by rfl)).2.2
    demoEnvLenientRejecting 0 (ascii "\x7b\x7b .Nope \x7d\x7d") (by rfl)
    (by
      intro t ht
      simp only [demoReceiver, List.mem_cons, List.mem_singleton, List.not_mem_nil,
        or_false] at ht
      rcases ht with rfl | rfl <;> rfl)).2.1 (by decide)).1

/-- C6: if some `Submit` call of `handle` returns an error `e`, that call is the
last effect of `handle` (no later template is rendered, no later request is
submitted), `handle` ends in `log.Fatal` with `e` and so returns nothing to its
caller, and `hook`, serving a request that decodes to this message, writes no
HTTP response and changes no error counter. -/
theorem handle_submit_failure_is_fatal {E D B : Type} (env : Env E D B)
    (receivers : ReceiverMap) (m : Message) (d : D) (pre post : List (Event E))
    (req : SendRequest) (e : E)
    (h : (handle env receivers m d).events = pre ++ .submit req (some e) :: post) :
    post = []
      ∧ (handle env receivers m d).outcome = .fatal e
      ∧ (∀ err, (handle env receivers m d).outcome ≠ .returned err)
      ∧ (∀ (reqBody : B) (mt : Metrics), env.Decode reqBody = .ok m →
          (hook env receivers reqBody mt d).response = none
            ∧ (hook env receivers reqBody mt d).metrics.errors = mt.errors) := by
  have key : post = [] ∧ (handle env receivers m d).outcome = .fatal e := by
    cases hrecv : receivers.get m.Receiver with
    | none =>
      have := (handle_unknown_receiver_events env receivers m d hrecv)
      rw [this] at h
      simp at h
    | some recv =>
      rw [handle_configured env receivers m d recv hrecv] at h ⊢
      rw [events_after] at h
      rw [outcome_after]
      cases pre with
      | nil => simp at h
      | cons p pre1 =>
        simp only [List.cons_append, List.cons.injEq] at h
        exact handleLoop_failed_submit_last env recv m _ recv.To _ d pre1 post req e h.2
  refine ⟨key.1, key.2, ?_, ?_⟩
  · intro err herr
    rw [key.2] at herr
    cases herr
  · intro reqBody mt hdec
    simp [hook, hdec, key.2]

theorem handle_submit_failure_is_fatal_witness :
    (handle demoEnvRejecting
        (demoReceivers (ascii "body") [ascii "tel:+1", ascii "tel:+2"]) demoMessage 0).events
      = [.render (ascii "body"), .render (ascii "tel:+1")]
          ++ .submit { Username := ascii "+100", MessageBody := ascii "body",
                       RecipientAddress := some { Number := ascii "+1" },
                       RecipientGroupID := [] } (some (ascii "broken pipe")) :: []
    ∧ (hook demoEnvRejecting
        (demoReceivers (ascii "body") [ascii "tel:+1", ascii "tel:+2"]) (ascii "ops")
        { received := 0, errors := fun _ => 0 } 0).response = none :=
  ⟨by decide,
    ((handle_submit_failure_is_fatal demoEnvRejecting
        (demoReceivers (ascii "body") [ascii "tel:+1", ascii "tel:+2"]) demoMessage 0
        [.render (ascii "body"), .render (ascii "tel:+1")] []
        { Username := ascii "+100", MessageBody := ascii "body",
          RecipientAddress := some { Number := ascii "+1" }, RecipientGroupID := [] }
        (ascii "broken pipe") (by decide)).2.2.2
      (ascii "ops") { received := 0, errors := fun _ => 0 } (by rfl)).1⟩

/-- C10: for a message with a configured receiver, and provided no submit
fails, `handle` returns exactly the value the last assignment to the
function-level `err` left there: the render result of the last recipient
template in declared order (nil if it rendered, its render error if not), or,
when the receiver has no recipients, the render result of the body template.
The right-hand side does not mention `Submit`: no submit error reaches the
returned value. -/
theorem handle_returns_last_render_result {E D B : Type} (env : Env E D B)
    (receivers : ReceiverMap) (m : Message) (d : D) (recv : Receiver)
    (hrecv : receivers.get m.Receiver = some recv)
    (hok : submitFailed (handle env receivers m d).events = false) :
    (handle env receivers m d).outcome
      = .returned (match recv.To.getLast? with
          | none => renderErr env m recv.Template
          | some t => renderErr env m t) := by
  rw [handle_configured env receivers m d recv hrecv] at hok ⊢
  rw [submitFailed_after_render] at hok
  rw [outcome_after, handleLoop_outcome env recv m _ recv.To _ d hok, renderBody_err]

theorem handle_returns_last_render_result_witness :
    (handle demoEnv
        (demoReceivers (ascii "\x7b\x7b .Nope \x7d\x7d")
          [ascii "\x7b\x7b .Nope \x7d\x7d", ascii "foo:bar"])
        demoMessage 0).outcome
      = .returned none :=
  handle_returns_last_render_result demoEnv
    (demoReceivers (ascii "\x7b\x7b .Nope \x7d\x7d")
      [ascii "\x7b\x7b .Nope \x7d\x7d", ascii "foo:bar"])
    demoMessage 0
    (demoReceiver (ascii "\x7b\x7b .Nope \x7d\x7d")
      [ascii "\x7b\x7b .Nope \x7d\x7d", ascii "foo:bar"])
    (by decide) (by decide)

/-- C7: the response of `hook` and its error-counter update follow from the
outcome alone.  If the body does not decode, `hook` answers 400 with
`Decode failed`, adds exactly 1 to `errors_total{type="decode"}`, changes no other
error counter and does not dispatch.  If it decodes and `handle` returns an
error (as it does for an unknown receiver), `hook` answers 500 with
`Handling alert failed`, adds exactly 1 to `errors_total{type="handle"}` and
changes no other error counter.  If `handle` returns nil, `hook` answers 200 with
`ok` and changes no error counter. -/
theorem hook_response_and_counters {E D B : Type} (env : Env E D B)
    (receivers : ReceiverMap) (reqBody : B) (mt : Metrics) (d : D) :
    (∀ e, env.Decode reqBody = .error e →
        (hook env receivers reqBody mt d).response
            = some { status := 400, text := ascii "Decode failed" }
          ∧ (hook env receivers reqBody mt d).metrics.errors (ascii "decode")
            = mt.errors (ascii "decode") + 1
          ∧ (∀ l, l ≠ ascii "decode" →
              (hook env receivers reqBody mt d).metrics.errors l = mt.errors l)
          ∧ (hook env receivers reqBody mt d).events = []
          ∧ (hook env receivers reqBody mt d).daemon = d)
      ∧ (∀ m err, env.Decode reqBody = .ok m →
          (handle env receivers m d).outcome = .returned (some err) →
          (hook env receivers reqBody mt d).response
              = some { status := 500, text := ascii "Handling alert failed" }
            ∧ (hook env receivers reqBody mt d).metrics.errors (ascii "handle")
              = mt.errors (ascii "handle") + 1
            ∧ (∀ l, l ≠ ascii "handle" →
                (hook env receivers reqBody mt d).metrics.errors l = mt.errors l))
      ∧ (∀ m, env.Decode reqBody = .ok m → receivers.get m.Receiver = none →
          (hook env receivers reqBody mt d).response
              = some { status := 500, text := ascii "Handling alert failed" }
            ∧ (hook env receivers reqBody mt d).metrics.errors (ascii "handle")
              = mt.errors (ascii "handle") + 1)
      ∧ (∀ m, env.Decode reqBody = .ok m →
          (handle env receivers m d).outcome = .returned none →
          (hook env receivers reqBody mt d).response
              = some { status := 200, text := ascii "ok" }
            ∧ (∀ l, (hook env receivers reqBody mt d).metrics.errors l = mt.errors l)) := by
  refine ⟨?_, ?_, ?_, ?_⟩
  · intro e hdec
    simp only [hook, hdec, Metrics.addError, if_true, true_and, and_true]
    intro l hl
    simp [hl]
  · intro m err hdec hout
    simp only [hook, hdec, hout, Metrics.addError, if_true, true_and]
    intro l hl
    simp [hl]
  · intro m hdec hrecv
    simp [hook, hdec, handle, hrecv, Metrics.addError]
  · intro m hdec hout
    simp [hook, hdec, hout]

theorem hook_response_and_counters_witness :
    (hook demoEnv (demoReceivers (ascii "body") [ascii "tel:+1"]) (ascii "garbage")
        { received := 0, errors := fun _ => 0 } 0).response
        = some { status := 400, text := ascii "Decode failed" }
      ∧ (hook demoEnv (demoReceivers (ascii "body") [ascii "tel:+1"]) (ascii "nobody")
        { received := 0, errors := fun _ => 0 } 0).response
        = some { status := 500, text := ascii "Handling alert failed" }
      ∧ (hook demoEnv (demoReceivers (ascii "body") [ascii "tel:+1"]) (ascii "ops")
        { received := 0, errors := fun _ => 0 } 0).response
        = some { status := 200, text := ascii "ok" } :=
  ⟨((hook_response_and_counters demoEnv (demoReceivers (ascii "body") [ascii "tel:+1"])
        (ascii "garbage") { received := 0, errors := fun _ => 0 } 0).1
      (ascii "invalid character") (by rfl)).1,
    ((hook_response_and_counters demoEnv (demoReceivers (ascii "body") [ascii "tel:+1"])
        (ascii "nobody") { received := 0, errors := fun _ => 0 } 0).2.2.1
      { demoMessage with Receiver := ascii "nobody" } (by rfl) (by decide)).1,
    ((hook_response_and_counters demoEnv (demoReceivers (ascii "body") [ascii "tel:+1"])
        (ascii "ops") { received := 0, errors := fun _ => 0 } 0).2.2.2
      demoMessage (by rfl) (by decide)).1⟩

/-! ## Lemmas about the receiver map and the registration loop -/

theorem ReceiverMap.get_eq_none_iff (rs : ReceiverMap) (k : GoString) :
    rs.get k = none ↔ k ∉ rs.map Prod.fst := by
  unfold ReceiverMap.get
  rw [Option.map_eq_none', List.find?_eq_none]
  constructor
  · intro h hk
    obtain ⟨p, hp, hpk⟩ := List.mem_map.mp hk
    exact h p hp (by simp [hpk])
  · intro h p hp hpk
    have : p.1 = k := by simpa using hpk
    exact h (this ▸ List.mem_map_of_mem Prod.fst hp)

theorem ReceiverMap.set_of_absent (rs : ReceiverMap) (k : GoString) (v : Receiver)
    (h : k ∉ rs.map Prod.fst) : rs.set k v = rs ++ [(k, v)] := by
  unfold ReceiverMap.set
  congr 1
  rw [List.filter_eq_self]
  intro p hp
  have : p.1 ≠ k := fun hpk => h (hpk ▸ List.mem_map_of_mem Prod.fst hp)
  simp [this]

theorem map_fst_entryOf (l : List Receiver) :
    (l.map entryOf).map Prod.fst = l.map Receiver.Name := by
  simp [entryOf, List.map_map, Function.comp_def]

/-- The registration loop succeeds exactly on receivers with non-empty names that
are distinct from each other and from the names registered before; it then adds
one entry per receiver. -/
theorem registerReceivers_ok_iff (l : List Receiver) :
    ∀ (acc : List Receiver) (rs : ReceiverMap),
      registerReceivers l (acc.map entryOf) = .ok rs ↔
        rs = (acc ++ l).map entryOf ∧ (∀ r ∈ l, r.Name ≠ []) ∧
          (∀ r ∈ l, r.Name ∉ acc.map Receiver.Name) ∧ (l.map Receiver.Name).Nodup := by
  induction l with
  | nil =>
    intro acc rs
    simp only [registerReceivers, Except.ok.injEq, List.append_nil, List.not_mem_nil,
      false_implies, implies_true, List.map_nil, List.nodup_nil, and_true]
    exact eq_comm
  | cons r rest ih =>
    intro acc rs
    unfold registerReceivers
    by_cases hlen : r.Name.length = 0
    · have hnil : r.Name = [] := List.length_eq_zero.mp hlen
      simp only [hlen, if_true]
      constructor
      · intro h; cases h
      · intro h
        exact absurd hnil (h.2.1 r (List.mem_cons_self _ _))
    · have hnil : r.Name ≠ [] := fun h => hlen (by rw [h]; rfl)
      simp only [hlen, if_false]
      by_cases hdup : (ReceiverMap.get (acc.map entryOf) r.Name).isSome = true
      · simp only [hdup, if_true]
        have hmem : r.Name ∈ acc.map Receiver.Name := by
          rw [← map_fst_entryOf]
          by_contra hc
          rw [(ReceiverMap.get_eq_none_iff _ _).mpr hc] at hdup
          simp at hdup
        constructor
        · intro h; cases h
        · intro h
          exact absurd hmem (h.2.2.1 r (List.mem_cons_self _ _))
      · simp only [hdup, Bool.false_eq_true, if_false]
        have hnone : ReceiverMap.get (acc.map entryOf) r.Name = none := by
          cases hg : ReceiverMap.get (acc.map entryOf) r.Name with
          | none => rfl
          | some v => simp [hg] at hdup
        have hmem : r.Name ∉ acc.map Receiver.Name := by
          rw [← map_fst_entryOf]
          exact (ReceiverMap.get_eq_none_iff _ _).mp hnone
        have hset : ReceiverMap.set (acc.map entryOf) r.Name r = (acc ++ [r]).map entryOf := by
          rw [ReceiverMap.set_of_absent _ _ _ ((ReceiverMap.get_eq_none_iff _ _).mp hnone)]
          simp [entryOf]
        rw [hset, ih (acc ++ [r]) rs]
        simp only [List.append_assoc, List.singleton_append, List.mem_cons, forall_eq_or_imp,
          List.map_append, List.map_cons, List.map_nil, List.mem_append, List.mem_singleton,
          not_or, List.nodup_cons, List.mem_map, not_exists, not_and, List.not_mem_nil,
          not_false_eq_true, and_true, or_false]
        constructor
        · rintro ⟨h1, h2, h3, h4⟩
          refine ⟨h1, ⟨hnil, h2⟩, ⟨?_, fun x hx => (h3 x hx).1⟩, ?_, h4⟩
          · intro x hx hxr
            exact hmem (List.mem_map.mpr ⟨x, hx, hxr⟩)
          · intro x hx hxr
            exact (h3 x hx).2 hxr
        · rintro ⟨h1, ⟨_, h2⟩, ⟨_, h3⟩, h4, h5⟩
          exact ⟨h1, h2, fun x hx => ⟨h3 x hx, fun hxr => h4 x hx hxr⟩, h5⟩

/-- The registration loop fails at the first receiver whose name is empty or
already registered. -/
theorem registerReceivers_error (l : List Receiver) :
    ∀ (acc : List Receiver) (f : StartupFatal),
      registerReceivers l (acc.map entryOf) = .error f →
      ∃ pre r post, l = pre ++ r :: post ∧ (∀ x ∈ pre, x.Name ≠ []) ∧
        (∀ x ∈ pre, x.Name ∉ acc.map Receiver.Name) ∧ (pre.map Receiver.Name).Nodup ∧
        ((r.Name = [] ∧ f = .missingName) ∨
          (r.Name ≠ [] ∧ r.Name ∈ (acc ++ pre).map Receiver.Name ∧
            f = .duplicateName r.Name)) := by
  induction l with
  | nil => intro acc f h; simp [registerReceivers] at h
  | cons r rest ih =>
    intro acc f h
    unfold registerReceivers at h
    by_cases hlen : r.Name.length = 0
    · have hnil : r.Name = [] := List.length_eq_zero.mp hlen
      simp only [hlen, if_true, Except.error.injEq] at h
      exact ⟨[], r, rest, rfl, by simp, by simp, by simp, Or.inl ⟨hnil, h.symm⟩⟩
    · have hnil : r.Name ≠ [] := fun h => hlen (by rw [h]; rfl)
      simp only [hlen, if_false] at h
      by_cases hdup : (ReceiverMap.get (acc.map entryOf) r.Name).isSome = true
      · simp only [hdup, if_true, Except.error.injEq] at h
        have hmem : r.Name ∈ acc.map Receiver.Name := by
          rw [← map_fst_entryOf]
          by_contra hc
          rw [(ReceiverMap.get_eq_none_iff _ _).mpr hc] at hdup
          simp at hdup
        exact ⟨[], r, rest, rfl, by simp, by simp, by simp,
          Or.inr ⟨hnil, by simpa using hmem, h.symm⟩⟩
      · simp only [hdup, Bool.false_eq_true, if_false] at h
        have hnone : ReceiverMap.get (acc.map entryOf) r.Name = none := by
          cases hg : ReceiverMap.get (acc.map entryOf) r.Name with
          | none => rfl
          | some v => simp [hg] at hdup
        have hmem : r.Name ∉ acc.map Receiver.Name := by
          rw [← map_fst_entryOf]
          exact (ReceiverMap.get_eq_none_iff _ _).mp hnone
        have hset : ReceiverMap.set (acc.map entryOf) r.Name r = (acc ++ [r]).map entryOf := by
          rw [ReceiverMap.set_of_absent _ _ _ ((ReceiverMap.get_eq_none_iff _ _).mp hnone)]
          simp [entryOf]
        rw [hset] at h
        obtain ⟨pre, r1, post, hl, hne, hnot, hnd, hlast⟩ := ih (acc ++ [r]) f h
        have hnot1 : ∀ x ∈ pre, x.Name ∉ acc.map Receiver.Name ∧ x.Name ≠ r.Name := by
          intro x hx
          have := hnot x hx
          simp only [List.map_append, List.map_cons, List.map_nil, List.mem_append,
            List.mem_singleton, not_or] at this
          exact this
        refine ⟨r :: pre, r1, post, by rw [hl]; rfl, ?_, ?_, ?_, ?_⟩
        · intro x hx
          rcases List.mem_cons.mp hx with rfl | hx
          · exact hnil
          · exact hne x hx
        · intro x hx
          rcases List.mem_cons.mp hx with rfl | hx
          · exact hmem
          · exact (hnot1 x hx).1
        · simp only [List.map_cons, List.nodup_cons, List.mem_map, not_exists, not_and]
          exact ⟨fun x hx hxr => (hnot1 x hx).2 hxr, hnd⟩
        · rcases hlast with h1 | ⟨h1, h2, h3⟩
          · exact Or.inl h1
          · refine Or.inr ⟨h1, ?_, h3⟩
            simpa [List.append_assoc] using h2

/-- Looking up the name of a registered receiver yields that receiver. -/
theorem get_entryOf (l : List Receiver) (hnd : (l.map Receiver.Name).Nodup) :
    ∀ r ∈ l, ReceiverMap.get (l.map entryOf) r.Name = some r := by
  induction l with
  | nil => intro r hr; cases hr
  | cons x xs ih =>
    intro r hr
    simp only [List.map_cons, List.nodup_cons] at hnd
    by_cases hx : x.Name = r.Name
    · have hrx : r = x := by
        rcases List.mem_cons.mp hr with h | h
        · exact h
        · exact absurd (hx ▸ List.mem_map_of_mem Receiver.Name h) hnd.1
      subst hrx
      simp [ReceiverMap.get, entryOf, List.find?_cons]
    · have hr1 : r ∈ xs := by
        rcases List.mem_cons.mp hr with h | h
        · exact absurd (h ▸ rfl) hx
        · exact h
      have := ih hnd.2 r hr1
      simp only [ReceiverMap.get, List.map_cons, List.find?_cons] at this ⊢
      have hb : ((entryOf x).1 == r.Name) = false := by
        simpa [entryOf] using hx
      rw [hb]
      exact this

theorem mainReceivers_ok_iff (cfg : List Receiver) (hne : cfg ≠ []) (rs : ReceiverMap) :
    mainReceivers cfg = .ok rs ↔
      rs = cfg.map entryOf ∧ (∀ r ∈ cfg, r.Name ≠ []) ∧ (cfg.map Receiver.Name).Nodup := by
  have hlen : ¬ cfg.length = 0 := fun h => hne (List.length_eq_zero.mp h)
  have := registerReceivers_ok_iff cfg [] rs
  simp only [List.map_nil, List.nil_append, List.not_mem_nil, not_false_eq_true,
    implies_true, true_and] at this
  simp only [mainReceivers, hlen, if_false]
  exact this

/-- C8: for a non-empty list of loaded receivers, the registration in `main`
succeeds if and only if every receiver has a non-empty name and no two receivers
share a name; when it fails, it fails at the first receiver whose name is empty
(`Receiver missing 'name:'`) or equal to the name of an earlier receiver
(`Duplicate receiver name`), every receiver before it being acceptable; when it
succeeds, the receiver map has one entry per loaded receiver and no other, and
looking up a loaded receiver's name yields that receiver.  Acceptance depends on
the list of names only. -/
theorem mainReceivers_validation (cfg : List Receiver) (hne : cfg ≠ []) :
    ((∃ rs, mainReceivers cfg = .ok rs) ↔
        (∀ r ∈ cfg, r.Name ≠ []) ∧ (cfg.map Receiver.Name).Nodup)
      ∧ (∀ f, mainReceivers cfg = .error f →
          ∃ pre r post, cfg = pre ++ r :: post ∧ (∀ x ∈ pre, x.Name ≠ []) ∧
            (pre.map Receiver.Name).Nodup ∧
            ((r.Name = [] ∧ f = .missingName) ∨
              (r.Name ≠ [] ∧ r.Name ∈ pre.map Receiver.Name ∧ f = .duplicateName r.Name)))
      ∧ (∀ rs, mainReceivers cfg = .ok rs →
          rs.length = cfg.length
            ∧ List.Perm rs (cfg.map fun r => (r.Name, r))
            ∧ (∀ r ∈ cfg, rs.get r.Name = some r)
            ∧ (∀ k, k ∉ cfg.map Receiver.Name → rs.get k = none))
      ∧ (∀ cfg1 : List Receiver, cfg1.map Receiver.Name = cfg.map Receiver.Name →
          ((∃ rs, mainReceivers cfg1 = .ok rs) ↔ ∃ rs, mainReceivers cfg = .ok rs)) := by
  have hiff : ∀ c : List Receiver, c ≠ [] →
      ((∃ rs, mainReceivers c = .ok rs) ↔
        [] ∉ c.map Receiver.Name ∧ (c.map Receiver.Name).Nodup) := by
    intro c hc
    constructor
    · rintro ⟨rs, h⟩
      have := (mainReceivers_ok_iff c hc rs).mp h
      refine ⟨?_, this.2.2⟩
      intro hmem
      obtain ⟨r, hr, hrn⟩ := List.mem_map.mp hmem
      exact this.2.1 r hr hrn
    · rintro ⟨h1, h2⟩
      exact ⟨c.map entryOf, (mainReceivers_ok_iff c hc _).mpr
        ⟨rfl, fun r hr hrn => h1 (hrn ▸ List.mem_map_of_mem Receiver.Name hr), h2⟩⟩
  refine ⟨?_, ?_, ?_, ?_⟩
  · rw [hiff cfg hne]
    constructor
    · rintro ⟨h1, h2⟩
      exact ⟨fun r hr hrn => h1 (hrn ▸ List.mem_map_of_mem Receiver.Name hr), h2⟩
    · rintro ⟨h1, h2⟩
      refine ⟨?_, h2⟩
      intro hmem
      obtain ⟨r, hr, hrn⟩ := List.mem_map.mp hmem
      exact h1 r hr hrn
  · intro f h
    have hlen : ¬ cfg.length = 0 := fun h => hne (List.length_eq_zero.mp h)
    simp only [mainReceivers, hlen, if_false] at h
    obtain ⟨pre, r, post, h1, h2, _, h4, h5⟩ := registerReceivers_error cfg [] f h
    exact ⟨pre, r, post, h1, h2, h4, by simpa using h5⟩
  · intro rs h
    obtain ⟨hrs, _, hnd⟩ := (mainReceivers_ok_iff cfg hne rs).mp h
    subst hrs
    refine ⟨by simp, ?_, ?_, ?_⟩
    · exact List.Perm.refl _
    · exact get_entryOf cfg hnd
    · intro k hk
      rw [ReceiverMap.get_eq_none_iff, map_fst_entryOf]
      exact hk
  · intro cfg1 hnames
    have hne1 : cfg1 ≠ [] := by
      intro h
      rw [h] at hnames
      exact hne (List.map_eq_nil_iff.mp hnames.symm)
    rw [hiff cfg hne, hiff cfg1 hne1, hnames]

theorem mainReceivers_validation_witness :
    ∃ rs, mainReceivers
        [demoReceiver (ascii "body") [ascii "tel:+1"],
          { Name := ascii "dev", Sender := [], To := [], Template := [] }] = .ok rs :=
  (mainReceivers_validation
      [demoReceiver (ascii "body") [ascii "tel:+1"],
        { Name := ascii "dev", Sender := [], To := [], Template := [] }]
      (by decide)).1.mpr ⟨by decide, by decide⟩

/-! ## Lemmas about the reconnect loop -/

theorem reconnectLoop_append (as bs : List Connect) :
    ∀ s : Supervisor,
      reconnectLoop s (as ++ bs)
        = ((reconnectLoop (reconnectLoop s as).1 bs).1,
            (reconnectLoop s as).2 ++ (reconnectLoop (reconnectLoop s as).1 bs).2) := by
  induction as with
  | nil => intro s; rfl
  | cons a rest ih =>
    intro s
    show reconnectLoop s (a :: (rest ++ bs)) = _
    simp only [reconnectLoop, ih, List.cons_append]

theorem reconnectStep_params (s : Supervisor) (c : Connect) :
    (reconnectStep s c).1.b.base = s.b.base ∧ (reconnectStep s c).1.b.cap = s.b.cap := by
  cases c <;> exact ⟨rfl, rfl⟩

theorem reconnectLoop_params (as : List Connect) :
    ∀ s : Supervisor,
      (reconnectLoop s as).1.b.base = s.b.base ∧ (reconnectLoop s as).1.b.cap = s.b.cap := by
  induction as with
  | nil => intro s; exact ⟨rfl, rfl⟩
  | cons a rest ih =>
    intro s
    simp only [reconnectLoop]
    rw [(ih _).1, (ih _).2]
    exact reconnectStep_params s a

/-- C9: in `handleReconnect`, after any history of connection attempts, two
consecutive failed attempts sleep delays `d1` then `d2` with `d1 ≤ cap`,
`d2 ≤ cap`, `d1 < d2` as long as `d1` is below the cap and `d2 = cap` once `d1`
has reached it; a failed attempt advances the policy by exactly one step and
leaves `connected` false; a successful attempt sleeps nothing, resets the policy
and leaves `connected` true; and the first failure after a successful connect
(or after start) sleeps the base delay. -/
theorem handleReconnect_backoff (base cap : Nat) (hbase : 0 < base) (hcap : base ≤ cap)
    (attempts : List Connect) :
    (∃ d1 d2,
        (handleReconnect base cap (attempts ++ [.failed, .failed])).2
            = (handleReconnect base cap attempts).2 ++ [some d1, some d2]
          ∧ d1 = min (base * 2 ^ (handleReconnect base cap attempts).1.b.attempt) cap
          ∧ d1 ≤ cap ∧ d2 ≤ cap ∧ (d1 < cap → d1 < d2) ∧ (d1 = cap → d2 = cap))
      ∧ (handleReconnect base cap (attempts ++ [.failed])).1.b.attempt
          = (handleReconnect base cap attempts).1.b.attempt + 1
      ∧ (handleReconnect base cap (attempts ++ [.failed])).1.connected = false
      ∧ (handleReconnect base cap (attempts ++ [.established])).2
          = (handleReconnect base cap attempts).2 ++ [none]
      ∧ (handleReconnect base cap (attempts ++ [.established])).1.b.attempt = 0
      ∧ (handleReconnect base cap (attempts ++ [.established])).1.connected = true
      ∧ (handleReconnect base cap (attempts ++ [.established, .failed])).2
          = (handleReconnect base cap attempts).2 ++ [none, some base]
      ∧ (handleReconnect base cap [.failed]).2 = [some base] := by
  have hp := reconnectLoop_params attempts
    { b := { base := base, cap := cap, attempt := 0 }, connected := false }
  simp only at hp
  have hmin : min base cap = base := Nat.min_eq_left hcap
  refine ⟨?_, ?_, ?_, ?_, ?_, ?_, ?_, ?_⟩
  · refine ⟨min (base * 2 ^ (handleReconnect base cap attempts).1.b.attempt) cap,
      min (base * 2 ^ ((handleReconnect base cap attempts).1.b.attempt + 1)) cap,
      ?_, rfl, ?_, ?_, ?_, ?_⟩
    · simp only [handleReconnect, reconnectLoop_append, reconnectLoop, reconnectStep,
        Backoff.Duration, hp.1, hp.2]
    · exact Nat.min_le_right _ _
    · exact Nat.min_le_right _ _
    · intro h
      have hx : 0 < base * 2 ^ (handleReconnect base cap attempts).1.b.attempt :=
        Nat.mul_pos hbase (Nat.pow_pos (by decide))
      have h2 : base * 2 ^ ((handleReconnect base cap attempts).1.b.attempt + 1)
          = 2 * (base * 2 ^ (handleReconnect base cap attempts).1.b.attempt) := by
        rw [pow_succ]; ring
      simp only [handleReconnect] at hx h2 h ⊢
      rw [h2]
      omega
    · intro h
      have h2 : base * 2 ^ ((handleReconnect base cap attempts).1.b.attempt + 1)
          = 2 * (base * 2 ^ (handleReconnect base cap attempts).1.b.attempt) := by
        rw [pow_succ]; ring
      simp only [handleReconnect] at h2 h ⊢
      rw [h2]
      omega
  · simp only [handleReconnect, reconnectLoop_append, reconnectLoop, reconnectStep,
      Backoff.Duration]
  · simp only [handleReconnect, reconnectLoop_append, reconnectLoop, reconnectStep]
  · simp only [handleReconnect, reconnectLoop_append, reconnectLoop, reconnectStep]
  · simp only [handleReconnect, reconnectLoop_append, reconnectLoop, reconnectStep,
      Backoff.Reset]
  · simp only [handleReconnect, reconnectLoop_append, reconnectLoop, reconnectStep]
  · simp only [handleReconnect, reconnectLoop_append, reconnectLoop, reconnectStep,
      Backoff.Duration, Backoff.Reset, hp.1, hp.2, pow_zero, mul_one, hmin]
  · simp only [handleReconnect, reconnectLoop, reconnectStep, Backoff.Duration, pow_zero,
      mul_one, hmin]

theorem handleReconnect_backoff_witness :
    (handleReconnect 100000000 10000000000
        ([.failed, .established] ++ [.established, .failed])).2
      = (handleReconnect 100000000 10000000000 [.failed, .established]).2
          ++ [none, some 100000000] :=
  (handleReconnect_backoff 100000000 10000000000 (by decide) (by decide)
    [.failed, .established]).2.2.2.2.2.2.1

end SignaldWebhook
